import Mathlib

/-!
Shallow embedding of the hosted-cluster provider of
scjianlin/multicluster-operator:
  * `pkg/provider/hosted/cluster/handler.go` (cluster-scope phases and the
    state-derivation steps `completeK8sVersion`, `completeNetworking`,
    `completeDNS`, `completeAddresses`, `completeCredential`,
    `EnsureClusterComplete`, `EnsureAddons`),
  * the machine-scope phase file of the same handler
    (`EnsurePreInstallHook`, `EnsureKubeconfig`, `EnsureJoinNode`,
    `EnsureMarkNode`, `EnsureNodeReady`, `GetMasterEndpoint`).

External capabilities (k8sutil CIDR arithmetic, the ksuid/bootstrap-token
generators, SSH transport, the cluster-manager client cache, the kubeconfig
and join routines) are passed in as explicit environment records, so every
phase is a pure function of its environment and its inputs.  Go errors are
an inductive `GoError`; Go runtime panics (nil dereference, out-of-range
indexing) are a distinct `Outcome.panics` result, never an error return.
-/

namespace MCO

/-- Address type of a `devopsv1.ClusterAddress`; the handler sources use
exactly the two values `AddressReal` and `AddressAdvertise`. -/
inductive AddressType where
  | real
  | advertise
deriving DecidableEq, Repr, BEq

/-- Type `devopsv1.ClusterAddress`: a triple of type, host and port. -/
structure ClusterAddress where
  type : AddressType
  host : String
  port : Int
deriving DecidableEq, Repr, BEq

/-- One entry of `cluster.Spec.Machines` (only the `IP` field is read by
the derivation step `completeAddresses`). -/
structure MachineSpecEntry where
  ip : String
deriving DecidableEq, Repr

/-- Type `Spec.Features.HA.DKEHA`: the self-managed HA mechanism, carrying a VIP. -/
structure DKEHA where
  vip : String
deriving DecidableEq, Repr

/-- Type `Spec.Features.HA.ThirdPartyHA`: third-party HA, VIP plus explicit port. -/
structure ThirdPartyHA where
  vip : String
  vport : Int
deriving DecidableEq, Repr

/-- Type `Spec.Features.HA`: both mechanism pointers, each possibly nil. -/
structure HA where
  dkeHA : Option DKEHA
  thirdPartyHA : Option ThirdPartyHA
deriving DecidableEq, Repr

/-- Hook keys of the `Spec.Features.Hooks` map used by the handler sources:
`devopsv1.HookPreInstall`, `devopsv1.HookPostInstall`, `devopsv1.HookCniInstall`. -/
inductive HookType where
  | preInstall
  | postInstall
  | cniInstall
deriving DecidableEq, Repr, BEq

/-- Type `Spec.Features`: the hook map (modelled as an association list, since Go
map indexing with a missing key yields the zero value `""`) and the HA pointer. -/
structure Features where
  hooks : List (HookType × String)
  ha : Option HA
deriving DecidableEq, Repr

/-- Go map indexing `Features.Hooks[k]`: the stored value, or the zero value
`""` when the key is absent. -/
def hooksGet (f : Features) (k : HookType) : String :=
  match f.hooks.lookup k with
  | some v => v
  | none => ""

/-- Type `Spec.Properties`: the capacity knobs read by `completeNetworking`.
The source dereferences `*MaxNodePodNum` and `*MaxClusterServiceNum`
unconditionally; we model records on which these are configured. -/
structure Properties where
  maxNodePodNum : Int
  maxClusterServiceNum : Int
deriving DecidableEq, Repr

/-- Type `devopsv1.ClusterSpec`: the declared fields the handler reads. -/
structure ClusterSpec where
  version : String
  clusterCIDR : String
  serviceCIDR : Option String
  properties : Properties
  machines : List MachineSpecEntry
  features : Features
  publicAlternativeNames : List String
deriving DecidableEq, Repr

/-- Type `devopsv1.ClusterStatus`: the observed fields the handler writes. -/
structure ClusterStatus where
  version : String
  serviceCIDR : String
  nodeCIDRMaskSize : Int
  dnsIP : String
  addresses : List ClusterAddress
deriving DecidableEq, Repr

/-- Type `devopsv1.ClusterCredential`: derived secret material.  The token
pointers are `Option`s: nil until derivation has run. -/
structure ClusterCredential where
  token : Option String
  bootstrapToken : Option String
  certificateKey : Option String
  caCert : String
  caKey : String
deriving DecidableEq, Repr

/-- Type `common.Cluster`: the in-memory record handed to every phase, bundling
the declared spec, the observed status and the credential. -/
structure Cluster where
  name : String
  spec : ClusterSpec
  status : ClusterStatus
  credential : ClusterCredential
deriving DecidableEq, Repr

/-- Go `error` values produced by the handler sources: `errors.New` /
`fmt.Errorf` are `msg`; `errors.Wrap(err, context)` is `wrap`;
`wait.ErrWaitTimeout` is `waitTimeout`. -/
inductive GoError where
  | msg (s : String)
  | wrap (context : String) (inner : GoError)
  | waitTimeout
deriving DecidableEq, Repr

/-- Rendering of a `GoError` as Go prints it with `%v` (github.com/pkg/errors
renders `Wrap` as `context: inner`). -/
def GoError.render : GoError → String
  | .msg s => s
  | .wrap context inner => context ++ ": " ++ inner.render
  | .waitTimeout => "timed out waiting for the condition"

/-- Result of running a Go function that may also crash: `ok`, an error
return, or a runtime panic (nil dereference / index out of range), which is
not an error return. -/
inductive Outcome (α : Type) where
  | ok (a : α)
  | err (e : GoError)
  | panics (msg : String)
deriving DecidableEq, Repr

/- ------------------------------------------------------------------
State derivation (`handler.go` lines 43-118, 136-150)
------------------------------------------------------------------ -/

/-- External capabilities consumed by the derivation steps: the k8sutil CIDR
arithmetic, `constants.DNSIPIndex` indexing, the ksuid generator, the
bootstrap-token generator and `crypto/rand` — all injected so each step is a
pure function. -/
structure DerivationEnv where
  getNodeCIDRMaskSize : String → Int → Except GoError Int
  getServiceCIDRAndNodeCIDRMaskSize : String → Int → Int → Except GoError (String × Int)
  getIndexedIP : String → Except GoError String
  ksuidNew : String
  generateBootstrapToken : Except GoError String
  randRead32 : Except GoError (List Nat)

/-- Step `completeK8sVersion`: copy the declared version into status. -/
def completeK8sVersion (c : Cluster) : Except GoError Cluster :=
  .ok { c with status.version := c.spec.version }

/-- Step `completeNetworking`: with a declared service CIDR, copy it and derive
only the node-CIDR mask size from (cluster CIDR, max-pods-per-node);
otherwise derive both from (cluster CIDR, max-services, max-pods-per-node).
Status fields are written only after the derivation call succeeds. -/
def completeNetworking (env : DerivationEnv) (c : Cluster) : Except GoError Cluster :=
  match c.spec.serviceCIDR with
  | some cidr =>
    match env.getNodeCIDRMaskSize c.spec.clusterCIDR c.spec.properties.maxNodePodNum with
    | .error e => .error (.wrap "GetNodeCIDRMaskSize error" e)
    | .ok mask =>
      .ok { c with status.serviceCIDR := cidr, status.nodeCIDRMaskSize := mask }
  | none =>
    match env.getServiceCIDRAndNodeCIDRMaskSize c.spec.clusterCIDR
        c.spec.properties.maxClusterServiceNum c.spec.properties.maxNodePodNum with
    | .error e => .error (.wrap "GetServiceCIDRAndNodeCIDRMaskSize error" e)
    | .ok (cidr, mask) =>
      .ok { c with status.serviceCIDR := cidr, status.nodeCIDRMaskSize := mask }

/-- Step `completeDNS`: the DNS IP is the fixed well-known index into the derived
service CIDR (`k8sutil.GetIndexedIP(status.ServiceCIDR, constants.DNSIPIndex)`,
injected through the environment). -/
def completeDNS (env : DerivationEnv) (c : Cluster) : Except GoError Cluster :=
  match env.getIndexedIP c.status.serviceCIDR with
  | .error e => .error (.wrap "get DNS IP error" e)
  | .ok ip => .ok { c with status.dnsIP := ip }

/-- Modelled from the spec: `common.Cluster.AddAddress` is not under the
sources; §4.1 step 4 says machine and HA endpoints are registered in the
cluster record, which we model as appending the address to
`status.Addresses`. -/
def AddAddress (c : Cluster) (t : AddressType) (host : String) (port : Int) : Cluster :=
  { c with status.addresses := c.status.addresses ++ [{ type := t, host := host, port := port }] }

/-- Step `completeAddresses`: one Real address at port 6443 per declared machine;
then, under `Features.HA`, one Advertise address for the DKEHA VIP at 6443
and one for the ThirdPartyHA VIP at its configured port. -/
def completeAddresses (c : Cluster) : Except GoError Cluster :=
  let c1 := c.spec.machines.foldl (fun acc m => AddAddress acc AddressType.real m.ip 6443) c
  match c.spec.features.ha with
  | none => .ok c1
  | some ha =>
    let c2 :=
      match ha.dkeHA with
      | none => c1
      | some d => AddAddress c1 AddressType.advertise d.vip 6443
    let c3 :=
      match ha.thirdPartyHA with
      | none => c2
      | some t => AddAddress c2 AddressType.advertise t.vip t.vport
    .ok c3

/-- Lower-case hex digit of a nibble, as used by Go `encoding/hex`:
codepoint 48 is the digit zero, codepoint 87 + 10 is the letter a. -/
def hexDigit (n : Nat) : Char :=
  if n < 10 then Char.ofNat (48 + n) else Char.ofNat (87 + n)

/-- Go `hex.EncodeToString` over a byte list. -/
def hexEncodeToString (bs : List Nat) : String :=
  String.mk (bs.flatMap fun b => [hexDigit (b / 16 % 16), hexDigit (b % 16)])

/-- Step `completeCredential`: unconditionally store a fresh ksuid as the cluster
token, then a fresh bootstrap token, then a hex-encoded 32-byte certificate
key.  The token is written before either fallible generator runs. -/
def completeCredential (env : DerivationEnv) (c : Cluster) : Except GoError Cluster :=
  let c1 := { c with credential.token := some env.ksuidNew }
  match env.generateBootstrapToken with
  | .error e => .error e
  | .ok bt =>
    let c2 := { c1 with credential.bootstrapToken := some bt }
    match env.randRead32 with
    | .error e => .error e
    | .ok bytes =>
      .ok { c2 with credential.certificateKey := some (hexEncodeToString bytes) }

/-- The `funcs` slice of `EnsureClusterComplete`, in source order. -/
def clusterCompleteFuncs (env : DerivationEnv) : List (Cluster → Except GoError Cluster) :=
  [completeK8sVersion, completeNetworking env, completeDNS env,
   completeAddresses, completeCredential env]

/-- The `for _, f := range funcs` loop of `EnsureClusterComplete`: run each
step on the record produced so far, returning the first error unchanged. -/
def runFuncs : List (Cluster → Except GoError Cluster) → Cluster → Except GoError Cluster
  | [], c => .ok c
  | f :: fs, c =>
    match f c with
    | .error e => .error e
    | .ok c2 => runFuncs fs c2

/-- Function `Provider.EnsureClusterComplete`: the five derivation steps in order,
fail-fast. -/
def EnsureClusterComplete (env : DerivationEnv) (c : Cluster) : Except GoError Cluster :=
  runFuncs (clusterCompleteFuncs env) c

/- ------------------------------------------------------------------
Endpoint selection (machine file, `GetMasterEndpoint`)
------------------------------------------------------------------ -/

/-- The endpoint string: `fmt.Sprintf("https://%s:%d", ...)`. -/
def endpointString (host : String) (port : Int) : String :=
  "https://" ++ host ++ ":" ++ toString port

/-- Function `GetMasterEndpoint`.  In the source the loop is
`for _, one := range addresses` and the slices collect `&one`: with the
pre-Go-1.22 range semantics this repository builds with (a 2020-era module),
`one` is a single variable reused for every iteration, so every pointer
stored in both `advertise` and `internal` aliases the same cell, whose final
value is the last element of `addresses`.  The random index
`rand.Intn(len(...))` therefore selects among pointers that all dereference
to that one cell, so the result is independent of it; `pick` keeps the
injected random draw explicit.  The two `.error` fallbacks inside the
branches are unreachable: a non-empty filtered slice forces `addresses`
itself to be non-empty, hence `getLast?` to be `some`. -/
def GetMasterEndpoint (pick : Nat) (addresses : List ClusterAddress) : Except GoError String :=
  let advertise := addresses.filter fun one => one.type == AddressType.advertise
  let internal := addresses.filter fun one => one.type == AddressType.real
  let derefOne : Option ClusterAddress := addresses.getLast?
  let _ := pick
  if advertise.length ≠ 0 then
    match derefOne with
    | some a => .ok (endpointString a.host a.port)
    | none => .error (.msg "no advertise or internal address for the cluster")
  else if internal.length ≠ 0 then
    match derefOne with
    | some a => .ok (endpointString a.host a.port)
    | none => .error (.msg "no advertise or internal address for the cluster")
  else
    .error (.msg "no advertise or internal address for the cluster")

/- ------------------------------------------------------------------
Target-cluster client lookup phases (`EnsureAddons`, `EnsureMarkNode`,
`EnsureNodeReady`)
------------------------------------------------------------------ -/

/-- An opaque handle returned by `ClusterManager.Get(name)`. -/
structure ClusterCtx where
  handle : String
deriving DecidableEq, Repr

/-- A declarative object produced by an addon builder. -/
structure AddonObj where
  kind : String
  objName : String
deriving DecidableEq, Repr

/-- Observable mutations performed by the client-lookup phases: a reconcile
of one declarative object against a target-cluster client, or the
label/taint marking of one node. -/
inductive Effect where
  | reconcileObj (ctx : ClusterCtx) (obj : AddonObj)
  | markNode (ctx : ClusterCtx) (ip : String) (labels : List (String × String)) (taints : List String)
deriving DecidableEq, Repr

/-- Environment of `EnsureAddons`: the cluster-manager lookup, the two addon
builders and the reconcile primitive. -/
structure AddonEnv where
  clusterManagerGet : Except GoError ClusterCtx
  buildKubeproxyAddon : Except GoError (List AddonObj)
  buildCoreDNSAddon : Except GoError (List AddonObj)
  reconcile : ClusterCtx → AddonObj → Except GoError Unit

/-- The reconcile loop bodies of `EnsureAddons`: reconcile each object in
order against the target-cluster client, stopping at the first error
(wrapped as in the source). -/
def reconcileSeq (env : AddonEnv) (ctx : ClusterCtx) :
    List AddonObj → Except GoError (List Effect)
  | [] => .ok []
  | obj :: objs =>
    match env.reconcile ctx obj with
    | .error e => .error (.wrap ("Reconcile  err: " ++ e.render) e)
    | .ok _ =>
      match reconcileSeq env ctx objs with
      | .error e => .error e
      | .ok effs => .ok (Effect.reconcileObj ctx obj :: effs)

/-- Function `Provider.EnsureAddons`: a failed target-cluster client lookup returns
success immediately (`return nil`); otherwise build and reconcile the
kube-proxy objects, then the CoreDNS objects (whose build error is wrapped
with the same "build kube-proxy err" text as in the source).  The result on
success is the list of reconciles performed. -/
def EnsureAddons (env : AddonEnv) : Except GoError (List Effect) :=
  match env.clusterManagerGet with
  | .error _ => .ok []
  | .ok ctx =>
    match env.buildKubeproxyAddon with
    | .error e => .error (.wrap ("build kube-proxy err: " ++ e.render) e)
    | .ok kObjs =>
      match reconcileSeq env ctx kObjs with
      | .error e => .error e
      | .ok eff1 =>
        match env.buildCoreDNSAddon with
        | .error e => .error (.wrap ("build kube-proxy err: " ++ e.render) e)
        | .ok dObjs =>
          match reconcileSeq env ctx dObjs with
          | .error e => .error e
          | .ok eff2 => .ok (eff1 ++ eff2)

/-- Machine fields read by the control-plane phases: the node name/IP and
the configured labels and taints. -/
structure MachineRecord where
  ip : String
  labels : List (String × String)
  taints : List String
deriving DecidableEq, Repr

/-- Environment of `EnsureMarkNode`: the cluster-manager lookup and the
`apiclient.MarkNode` capability. -/
structure MarkNodeEnv where
  clusterManagerGet : Except GoError ClusterCtx
  markNode : ClusterCtx → String → List (String × String) → List String → Except GoError Unit

/-- Function `Provider.EnsureMarkNode`: a failed client lookup returns success with
no mutation; otherwise apply the configured machine labels and taints to its node,
propagating a marking error. -/
def EnsureMarkNode (env : MarkNodeEnv) (machine : MachineRecord) : Except GoError (List Effect) :=
  match env.clusterManagerGet with
  | .error _ => .ok []
  | .ok ctx =>
    match env.markNode ctx machine.ip machine.labels machine.taints with
    | .error e => .error e
    | .ok _ => .ok [Effect.markNode ctx machine.ip machine.labels machine.taints]

/-- One condition of the node status. -/
structure NodeCondition where
  type : String
  status : String
deriving DecidableEq, Repr

/-- The node object as read by the readiness poll. -/
structure Node where
  conditions : List NodeCondition
deriving DecidableEq, Repr

/-- Environment of `EnsureNodeReady`: the cluster-manager lookup and the
per-attempt node read (`Nodes().Get`), indexed by the poll attempt so the
environment can describe a node whose state changes over time. -/
structure NodeReadyEnv where
  clusterManagerGet : Except GoError ClusterCtx
  getNode : ClusterCtx → String → Nat → Except GoError Node

/-- The body of the poll closure: a failed node read retries (condition
false); otherwise the condition holds exactly when some status condition has
type `Ready` with status `True`. -/
def nodeObservedReady (env : NodeReadyEnv) (ctx : ClusterCtx) (ip : String) (i : Nat) : Bool :=
  match env.getNode ctx ip i with
  | .error _ => false
  | .ok node => node.conditions.any fun one => one.type == "Ready" && one.status == "True"

/-- Modelled from the spec: `wait.PollImmediate` of k8s.io/apimachinery is
not under the sources; §4.4 says the phase polls on a fixed interval up to a
bounded timeout, checking immediately and then once per tick, and exceeding
the timeout without success is the timeout error.  `pollFrom cond i fuel`
checks `cond` at attempt `i` and then at `fuel` further attempts. -/
def pollFrom (cond : Nat → Bool) : Nat → Nat → Except GoError Unit
  | i, fuel =>
    if cond i then .ok ()
    else
      match fuel with
      | 0 => .error .waitTimeout
      | fuel2 + 1 => pollFrom cond (i + 1) fuel2

/-- Modelled from the spec: `wait.PollImmediate(interval, timeout, cond)` —
an immediate check plus one check per elapsed interval within the timeout. -/
def pollImmediate (interval timeout : Nat) (cond : Nat → Bool) : Except GoError Unit :=
  pollFrom cond 0 (timeout / interval)

/-- Function `Provider.EnsureNodeReady`: a failed client lookup returns success
immediately; otherwise poll the node every 5 seconds for up to 5 minutes. -/
def EnsureNodeReady (env : NodeReadyEnv) (machine : MachineRecord) : Except GoError Unit :=
  match env.clusterManagerGet with
  | .error _ => .ok ()
  | .ok ctx => pollImmediate 5 300 (nodeObservedReady env ctx machine.ip)

/- ------------------------------------------------------------------
Remote-execution machine phases (`EnsurePreInstallHook`,
`EnsureKubeconfig`, `EnsureJoinNode`)
------------------------------------------------------------------ -/

/-- Result quadruple of `ssh.Exec(cmd)`: stdout, stderr, exit code and the
transport error (as its rendered message, `none` when nil). -/
structure ExecResult where
  stdout : String
  stderr : String
  exit : Int
  errMsg : Option String
deriving DecidableEq, Repr

/-- An obtained SSH handle: its behaviour on each command. -/
structure SSHHandle where
  exec : String → ExecResult

/-- The kubeconfig options assembled by the machine kubeconfig phase and
handed to `kubeconfig.InstallNode`. -/
structure KubeconfigOption where
  masterEndpoint : String
  clusterName : String
  caCert : String
  token : String
deriving DecidableEq, Repr

/-- Environment of the remote-execution machine phases: `machine.Spec.SSH()`
plus the external routines they delegate to. -/
structure MachinePhaseEnv where
  ssh : Except GoError SSHHandle
  getBindPort : Cluster → Int
  installNode : KubeconfigOption → Except GoError Unit
  joinNodePhase : Cluster → String → Bool → Except GoError Unit

/-- Function `certs.BuildApiserverEndpoint` (not under the sources; §4.3/§4.4 bind
kubeconfigs "to the resolved API-server endpoint and port", rendered as an
https URL exactly like `GetMasterEndpoint` renders its result). -/
def BuildApiserverEndpoint (host : String) (port : Int) : String :=
  endpointString host port

/-- The message of the `fmt.Errorf("exec %q failed:exit %d:stderr %s:error %s", ...)`
failure in both hook phases (`%q` quotes the hook; a nil error prints as
`<nil>` under `%s`). -/
def hookExecErrorMsg (hook : String) (exit : Int) (stderr errText : String) : String :=
  "exec \"" ++ hook ++ "\" failed:exit " ++ toString exit ++ ":stderr " ++ stderr
    ++ ":error " ++ errText

/-- Function `Provider.EnsurePreInstallHook` (machine file).  Note the source reads
the `HookPostInstall` key here.  An empty hook is a no-op; otherwise obtain
the SSH handle, `chmod +x` the first word of the hook (result ignored), run
the hook, and fail with the formatted message carrying the exit code and the
captured stderr whenever the transport errored or the exit code is
non-zero. -/
def EnsurePreInstallHook (env : MachinePhaseEnv) (cluster : Cluster) : Except GoError Unit :=
  let hook := hooksGet cluster.spec.features HookType.postInstall
  if hook = "" then .ok ()
  else
    match env.ssh with
    | .error e => .error e
    | .ok h =>
      let cmd := (hook.splitOn " ").headD ""
      let _ := h.exec ("chmod +x " ++ cmd)
      let r := h.exec hook
      if r.errMsg.isSome || r.exit != 0 then
        .error (.msg (hookExecErrorMsg hook r.exit r.stderr (r.errMsg.getD "<nil>")))
      else .ok ()

/-- Function `Provider.EnsureKubeconfig` (machine file): obtain the SSH handle, build
the endpoint from `Spec.Features.HA.ThirdPartyHA.VIP` (a nil HA or
ThirdPartyHA pointer panics) and the bind port, assemble the options with
the cluster CA certificate and `*ClusterCredential.Token` (a nil token
panics), and install them on the node.  The source returns only an error; we
surface the option record passed to `kubeconfig.InstallNode` as the success
value so its fields can be stated. -/
def EnsureKubeconfigNode (env : MachinePhaseEnv) (c : Cluster) : Outcome KubeconfigOption :=
  match env.ssh with
  | .error e => .err e
  | .ok _ =>
    match c.spec.features.ha with
    | none => .panics "invalid memory address or nil pointer dereference"
    | some ha =>
      match ha.thirdPartyHA with
      | none => .panics "invalid memory address or nil pointer dereference"
      | some tp =>
        let apiserver := BuildApiserverEndpoint tp.vip (env.getBindPort c)
        match c.credential.token with
        | none => .panics "invalid memory address or nil pointer dereference"
        | some tok =>
          let option : KubeconfigOption :=
            { masterEndpoint := apiserver, clusterName := c.name,
              caCert := c.credential.caCert, token := tok }
          match env.installNode option with
          | .error e => .err e
          | .ok _ => .ok option

/-- Function `Provider.EnsureJoinNode`: obtain the SSH handle, build the join
endpoint from `Spec.PublicAlternativeNames[0]` — an unconditional index that
panics on an empty list — and run the external join procedure against it. -/
def EnsureJoinNode (env : MachinePhaseEnv) (c : Cluster) : Outcome Unit :=
  match env.ssh with
  | .error e => .err e
  | .ok _ =>
    match c.spec.publicAlternativeNames with
    | [] => .panics "index out of range [0] with length 0"
    | n :: _ =>
      let apiserver := BuildApiserverEndpoint n (env.getBindPort c)
      match env.joinNodePhase c apiserver false with
      | .error e => .err e
      | .ok _ => .ok ()

/-- Modelled from the spec: the machine pipeline driver is not under the
sources; §4.4 and §7 say the phases run strictly in order and any error
aborts the remaining phases of that machine.  `runPhases` threads a state
through the listed phases, stopping at the first error. -/
def runPhases {σ : Type} : List (σ → Except GoError σ) → σ → Except GoError σ
  | [], s => .ok s
  | f :: fs, s =>
    match f s with
    | .error e => .error e
    | .ok s2 => runPhases fs s2

/-- Containment: `sub` occurs contiguously inside `s`. -/
def strContains (s sub : String) : Prop :=
  ∃ l r, s.data = l ++ sub.data ++ r

/- ------------------------------------------------------------------
Concrete fixtures (used by counterexamples and witnesses)
------------------------------------------------------------------ -/

/-- A declared three-machine cluster with an explicit service CIDR and no
HA, mirroring the scenario of spec §8. -/
def demoSpec : ClusterSpec :=
  { version := "1.18.5"
    clusterCIDR := "10.0.0.0/16"
    serviceCIDR := some "10.96.0.0/16"
    properties := { maxNodePodNum := 64, maxClusterServiceNum := 4096 }
    machines := [{ ip := "10.0.0.1" }, { ip := "10.0.0.2" }, { ip := "10.0.0.3" }]
    features := { hooks := [], ha := none }
    publicAlternativeNames := ["apiserver.demo"] }

/-- An all-empty observed status. -/
def demoStatus : ClusterStatus :=
  { version := "", serviceCIDR := "", nodeCIDRMaskSize := 0, dnsIP := "", addresses := [] }

/-- A credential with nil tokens (not yet derived). -/
def demoCredNil : ClusterCredential :=
  { token := none, bootstrapToken := none, certificateKey := none,
    caCert := "CA-CERT", caKey := "CA-KEY" }

/-- A not-yet-derived cluster record. -/
def demoCluster : Cluster :=
  { name := "demo", spec := demoSpec, status := demoStatus, credential := demoCredNil }

/-- A derivation environment whose external calls all succeed and whose
generators are fixed. -/
def demoEnv : DerivationEnv :=
  { getNodeCIDRMaskSize := fun _ _ => .ok 26
    getServiceCIDRAndNodeCIDRMaskSize := fun _ _ _ => .ok ("10.96.0.0/16", 26)
    getIndexedIP := fun _ => .ok "10.96.0.10"
    ksuidNew := "KSUID-1"
    generateBootstrapToken := .ok "abcdef.0123456789abcdef"
    randRead32 := .ok (List.replicate 32 0) }

/-- The record of `demoCluster` after a first successful derivation: its
token is non-nil. -/
def demoDerived : Cluster :=
  { demoCluster with
    status :=
      { version := "1.18.5", serviceCIDR := "10.96.0.0/16", nodeCIDRMaskSize := 26,
        dnsIP := "10.96.0.10",
        addresses :=
          [{ type := AddressType.real, host := "10.0.0.1", port := 6443 },
           { type := AddressType.real, host := "10.0.0.2", port := 6443 },
           { type := AddressType.real, host := "10.0.0.3", port := 6443 }] }
    credential :=
      { demoCredNil with
        token := some "KSUID-1"
        bootstrapToken := some "abcdef.0123456789abcdef"
        certificateKey := some (hexEncodeToString (List.replicate 32 0)) } }

/-- The same environment at a later invocation: the ksuid generator yields a
fresh identifier. -/
def demoEnv2 : DerivationEnv :=
  { demoEnv with ksuidNew := "KSUID-2" }

/-- The record produced by re-running `EnsureClusterComplete` on the
already-derived `demoDerived` under `demoEnv2`: the three Real addresses are
registered a second time and the token has been replaced. -/
def demoDerived2 : Cluster :=
  { demoDerived with
    status.addresses := demoDerived.status.addresses ++ demoDerived.status.addresses
    credential.token := some "KSUID-2" }

/- ------------------------------------------------------------------
Helper lemmas
------------------------------------------------------------------ -/

theorem runFuncs_append (fs gs : List (Cluster → Except GoError Cluster)) (c : Cluster) :
    runFuncs (fs ++ gs) c =
      match runFuncs fs c with
      | .error e => .error e
      | .ok c2 => runFuncs gs c2 := by
  induction fs generalizing c with
  | nil => rfl
  | cons f fs ih =>
    show (match f c with
          | Except.error e => Except.error e
          | Except.ok c2 => runFuncs (fs ++ gs) c2) =
        match (match f c with
               | Except.error e => Except.error e
               | Except.ok c2 => runFuncs fs c2) with
        | Except.error e => Except.error e
        | Except.ok c2 => runFuncs gs c2
    cases f c with
    | error e => rfl
    | ok c2 => exact ih c2

/-- The cons unfolding of `runFuncs`, phrased with `Except.bind` (the Go
early-return on error). -/
theorem runFuncs_cons_bind (f : Cluster → Except GoError Cluster)
    (fs : List (Cluster → Except GoError Cluster)) (c : Cluster) :
    runFuncs (f :: fs) c = (f c).bind fun c2 => runFuncs fs c2 := by
  show (match f c with
        | Except.error e => Except.error e
        | Except.ok c2 => runFuncs fs c2) = (f c).bind fun c2 => runFuncs fs c2
  cases f c <;> rfl

theorem runFuncs_nil (c : Cluster) : runFuncs [] c = .ok c := rfl

theorem except_bind_ok (x : Except GoError Cluster) :
    (x.bind fun a => Except.ok a) = x := by
  cases x <;> rfl

theorem runFuncs_failfast (fs₁ fs₂ : List (Cluster → Except GoError Cluster))
    (f : Cluster → Except GoError Cluster) (c c2 : Cluster) (e : GoError)
    (h1 : runFuncs fs₁ c = .ok c2) (h2 : f c2 = .error e) :
    runFuncs (fs₁ ++ f :: fs₂) c = .error e := by
  rw [runFuncs_append, h1]
  show runFuncs (f :: fs₂) c2 = _
  unfold runFuncs
  rw [h2]

/- ------------------------------------------------------------------
C6 — derivation order and fail-fast
------------------------------------------------------------------ -/

/-- C6: `EnsureClusterComplete` runs exactly the five steps version,
networking, DNS, addresses, credentials in that order (it equals their
sequential composition), and whenever the steps before position `k` succeed
and the step at position `k` returns an error, the whole derivation returns
that error unchanged — no later step runs. -/
theorem ensureClusterComplete_order_failfast (env : DerivationEnv) (c : Cluster) :
    (EnsureClusterComplete env c =
      (completeK8sVersion c).bind fun c1 =>
      (completeNetworking env c1).bind fun c2 =>
      (completeDNS env c2).bind fun c3 =>
      (completeAddresses c3).bind fun c4 =>
      completeCredential env c4) ∧
    (∀ k : Fin 5, ∀ c2 e,
      runFuncs ((clusterCompleteFuncs env).take k.val) c = .ok c2 →
      (clusterCompleteFuncs env).get k c2 = .error e →
      EnsureClusterComplete env c = .error e) := by
  constructor
  · show runFuncs (clusterCompleteFuncs env) c = _
    simp only [clusterCompleteFuncs, runFuncs_cons_bind, runFuncs_nil, except_bind_ok]
  · intro k c2 e h1 h2
    have hdec : clusterCompleteFuncs env =
        (clusterCompleteFuncs env).take k.val
          ++ (clusterCompleteFuncs env).get k :: (clusterCompleteFuncs env).drop (k.val + 1) := by
      fin_cases k <;> rfl
    rw [EnsureClusterComplete, hdec]
    exact runFuncs_failfast _ _ _ c c2 e h1 h2

/-- C6 witness: under an environment whose node-CIDR-mask derivation fails,
the derivation aborts at the networking step with the wrapped error of that step. -/
theorem ensureClusterComplete_order_failfast_w :
    EnsureClusterComplete
        { demoEnv with getNodeCIDRMaskSize := fun _ _ => .error (.msg "cidr too small") }
        demoCluster =
      .error (.wrap "GetNodeCIDRMaskSize error" (.msg "cidr too small")) :=
  (ensureClusterComplete_order_failfast
      { demoEnv with getNodeCIDRMaskSize := fun _ _ => .error (.msg "cidr too small") }
      demoCluster).2
    ⟨1, by omega⟩ { demoCluster with status.version := "1.18.5" }
    (.wrap "GetNodeCIDRMaskSize error" (.msg "cidr too small")) rfl rfl

/- ------------------------------------------------------------------
C1 — re-running completion regenerates the token
------------------------------------------------------------------ -/

/-- C1 counterexample: `demoDerived` has already been derived (its token is
the non-nil `"KSUID-1"`), yet re-running the completion step under an
environment whose fresh ksuid is `"KSUID-2"` succeeds and stores that fresh
token — the stored cluster token changes. -/
theorem completion_rerun_changes_token_cex :
    demoDerived.credential.token = some "KSUID-1" ∧
    EnsureClusterComplete demoEnv2 demoDerived = .ok demoDerived2 ∧
    demoDerived2.credential.token = some "KSUID-2" ∧
    demoDerived2.credential.token ≠ demoDerived.credential.token :=
  ⟨rfl, rfl, rfl, by decide⟩

/-- C1 amended: whenever the completion step succeeds, the stored token is
the ksuid freshly generated by that invocation — token (re)generation is a
side effect of every run of the completion step, so any re-run whose fresh
ksuid differs from the stored token changes the stored token. -/
theorem ensureClusterComplete_token_overwrite (env : DerivationEnv) (c c2 : Cluster)
    (h : EnsureClusterComplete env c = .ok c2) :
    c2.credential.token = some env.ksuidNew ∧
    (c.credential.token ≠ some env.ksuidNew → c2.credential.token ≠ c.credential.token) := by
  have htok : c2.credential.token = some env.ksuidNew := by
    unfold EnsureClusterComplete clusterCompleteFuncs at h
    rw [runFuncs] at h
    split at h
    · simp at h
    · rw [runFuncs] at h
      split at h
      · simp at h
      · rw [runFuncs] at h
        split at h
        · simp at h
        · rw [runFuncs] at h
          split at h
          · simp at h
          · rw [runFuncs] at h
            split at h
            · simp at h
            · rename_i c5 heq
              rw [runFuncs] at h
              cases h
              unfold completeCredential at heq
              split at heq
              · simp at heq
              · split at heq
                · simp at heq
                · cases heq
                  rfl
  exact ⟨htok, fun hne => htok ▸ fun heq => hne heq.symm⟩

/-- C1 amended witness: the amended statement at the concrete re-run of the
counterexample. -/
theorem ensureClusterComplete_token_overwrite_w :
    demoDerived2.credential.token = some "KSUID-2" ∧
    demoDerived2.credential.token ≠ demoDerived.credential.token := by
  have h := ensureClusterComplete_token_overwrite demoEnv2 demoDerived demoDerived2 rfl
  exact ⟨h.1, h.2 (by decide)⟩

/- ------------------------------------------------------------------
C8 — address derivation
------------------------------------------------------------------ -/

theorem foldl_addAddress (ms : List MachineSpecEntry) (c : Cluster) :
    ms.foldl (fun acc m => AddAddress acc AddressType.real m.ip 6443) c =
      { c with status.addresses :=
          c.status.addresses
            ++ ms.map fun m => { type := AddressType.real, host := m.ip, port := 6443 } } := by
  induction ms generalizing c with
  | nil => simp
  | cons m ms ih =>
    rw [List.foldl_cons, ih]
    simp [AddAddress, List.append_assoc]

/-- C8: the address-derivation step succeeds and registers, on top of the
addresses already present, exactly one Real address at port 6443 per
declared machine, followed — when HA is configured — by one Advertise
address per configured mechanism: the DKEHA VIP at 6443 and the
ThirdPartyHA VIP at its configured port; with no HA, no Advertise address
is added. -/
theorem completeAddresses_spec (c : Cluster) :
    completeAddresses c = .ok
      { c with status.addresses :=
          c.status.addresses
            ++ (c.spec.machines.map fun m =>
                  { type := AddressType.real, host := m.ip, port := 6443 })
            ++ (match c.spec.features.ha with
                | none => []
                | some ha =>
                  (match ha.dkeHA with
                   | none => []
                   | some d => [{ type := AddressType.advertise, host := d.vip, port := 6443 }])
                  ++ (match ha.thirdPartyHA with
                      | none => []
                      | some t => [{ type := AddressType.advertise, host := t.vip, port := t.vport }])) } := by
  unfold completeAddresses
  rw [foldl_addAddress]
  cases hha : c.spec.features.ha with
  | none => simp [hha]
  | some ha =>
    simp only [hha]
    cases hd : ha.dkeHA <;> cases ht : ha.thirdPartyHA <;>
      simp [AddAddress, List.append_assoc]

/- ------------------------------------------------------------------
C9 — networking derivation
------------------------------------------------------------------ -/

/-- C9: with a declared service CIDR, `completeNetworking` copies it to
status and derives only the node-CIDR mask size from the cluster CIDR and
max-pods-per-node; without one it derives both the service CIDR and the
mask size from the cluster CIDR, max-services and max-pods-per-node.  In
both cases a derivation error aborts the step with a wrapped error and the
status fields are written (both at once) only on success. -/
theorem completeNetworking_spec (env : DerivationEnv) (c : Cluster) :
    (∀ cidr, c.spec.serviceCIDR = some cidr →
      (∀ e, env.getNodeCIDRMaskSize c.spec.clusterCIDR c.spec.properties.maxNodePodNum
              = .error e →
        completeNetworking env c = .error (.wrap "GetNodeCIDRMaskSize error" e)) ∧
      (∀ mask, env.getNodeCIDRMaskSize c.spec.clusterCIDR c.spec.properties.maxNodePodNum
              = .ok mask →
        completeNetworking env c =
          .ok { c with status.serviceCIDR := cidr, status.nodeCIDRMaskSize := mask })) ∧
    (c.spec.serviceCIDR = none →
      (∀ e, env.getServiceCIDRAndNodeCIDRMaskSize c.spec.clusterCIDR
              c.spec.properties.maxClusterServiceNum c.spec.properties.maxNodePodNum
              = .error e →
        completeNetworking env c = .error (.wrap "GetServiceCIDRAndNodeCIDRMaskSize error" e)) ∧
      (∀ cidr mask, env.getServiceCIDRAndNodeCIDRMaskSize c.spec.clusterCIDR
              c.spec.properties.maxClusterServiceNum c.spec.properties.maxNodePodNum
              = .ok (cidr, mask) →
        completeNetworking env c =
          .ok { c with status.serviceCIDR := cidr, status.nodeCIDRMaskSize := mask })) := by
  constructor
  · intro cidr hcidr
    constructor
    · intro e he
      simp [completeNetworking, hcidr, he]
    · intro mask hm
      simp [completeNetworking, hcidr, hm]
  · intro hnone
    constructor
    · intro e he
      simp [completeNetworking, hnone, he]
    · intro cidr mask hm
      simp [completeNetworking, hnone, hm]

/-- C9 witness: on the demo cluster, whose service CIDR is declared, the
networking step copies that CIDR and stores the mask size 26 returned by
the injected derivation. -/
theorem completeNetworking_spec_w :
    completeNetworking demoEnv demoCluster =
      .ok { demoCluster with
              status.serviceCIDR := "10.96.0.0/16", status.nodeCIDRMaskSize := 26 } :=
  ((completeNetworking_spec demoEnv demoCluster).1 "10.96.0.0/16" rfl).2 26 rfl

/- ------------------------------------------------------------------
C2 — endpoint selection and the loop-variable aliasing
------------------------------------------------------------------ -/

/-- C2: on the list holding one Advertise address (`1.1.1.1:6443`) followed
by one Real address (`2.2.2.2:6443`), `GetMasterEndpoint` returns the
endpoint of the Real address — not of the Advertise address — because every
pointer collected by the loop aliases the single range variable, whose
final value is the last list element.  On the empty list it does fail with
the no-address error, and with only Real addresses it returns one of their
endpoints (the last). -/
theorem getMasterEndpoint_alias_eval :
    GetMasterEndpoint 0
        [{ type := AddressType.advertise, host := "1.1.1.1", port := 6443 },
         { type := AddressType.real, host := "2.2.2.2", port := 6443 }]
      = .ok (endpointString "2.2.2.2" 6443) ∧
    endpointString "2.2.2.2" 6443 ≠ endpointString "1.1.1.1" 6443 ∧
    GetMasterEndpoint 0 [] = .error (.msg "no advertise or internal address for the cluster") ∧
    GetMasterEndpoint 0
        [{ type := AddressType.real, host := "3.3.3.3", port := 6443 },
         { type := AddressType.real, host := "4.4.4.4", port := 6443 }]
      = .ok (endpointString "4.4.4.4" 6443) :=
  ⟨rfl, by decide, rfl, rfl⟩

/- ------------------------------------------------------------------
C3 — failed client lookup is a benign no-op
------------------------------------------------------------------ -/

/-- C3: whenever the target-cluster client lookup fails, the
addon-installation, mark-node and node-ready-wait phases all return success
— the addon and mark phases with an empty effect list (no reconcile, no
node marking), the readiness phase without polling — instead of propagating
the lookup error. -/
theorem clientLookup_benign_noop (envA : AddonEnv) (envM : MarkNodeEnv) (envN : NodeReadyEnv)
    (m : MachineRecord) (eA eM eN : GoError)
    (hA : envA.clusterManagerGet = .error eA)
    (hM : envM.clusterManagerGet = .error eM)
    (hN : envN.clusterManagerGet = .error eN) :
    EnsureAddons envA = .ok [] ∧
    EnsureMarkNode envM m = .ok [] ∧
    EnsureNodeReady envN m = .ok () := by
  refine ⟨?_, ?_, ?_⟩
  · simp [EnsureAddons, hA]
  · simp [EnsureMarkNode, hM]
  · simp [EnsureNodeReady, hN]

/-- C3 witness: concrete environments whose lookup fails. -/
theorem clientLookup_benign_noop_w :
    EnsureAddons
        { clusterManagerGet := .error (.msg "cluster no client")
          buildKubeproxyAddon := .ok []
          buildCoreDNSAddon := .ok []
          reconcile := fun _ _ => .ok () } = .ok [] ∧
    EnsureMarkNode
        { clusterManagerGet := .error (.msg "cluster no client")
          markNode := fun _ _ _ _ => .ok () }
        { ip := "10.0.0.1", labels := [], taints := [] } = .ok [] ∧
    EnsureNodeReady
        { clusterManagerGet := .error (.msg "cluster no client")
          getNode := fun _ _ _ => .ok { conditions := [] } }
        { ip := "10.0.0.1", labels := [], taints := [] } = .ok () :=
  clientLookup_benign_noop _ _ _ _
    (.msg "cluster no client") (.msg "cluster no client") (.msg "cluster no client")
    rfl rfl rfl

/- ------------------------------------------------------------------
C4 — bounded node-ready polling
------------------------------------------------------------------ -/

theorem pollFrom_never (cond : Nat → Bool) (h : ∀ i, cond i = false) :
    ∀ fuel i, pollFrom cond i fuel = .error .waitTimeout := by
  intro fuel
  induction fuel with
  | zero => intro i; simp [pollFrom, h]
  | succ n ih => intro i; simp [pollFrom, h, ih]

theorem pollFrom_first_true (cond : Nat → Bool) :
    ∀ k i fuel, k ≤ fuel → cond (i + k) = true → (∀ j, j < k → cond (i + j) = false) →
      pollFrom cond i fuel = .ok () := by
  intro k
  induction k with
  | zero =>
    intro i fuel _ htrue _
    have hc : cond i = true := by simpa using htrue
    cases fuel <;> simp [pollFrom, hc]
  | succ k ih =>
    intro i fuel hle htrue hbefore
    have h0 : cond i = false := by simpa using hbefore 0 (Nat.succ_pos k)
    cases fuel with
    | zero => omega
    | succ f =>
      have step : pollFrom cond i (f + 1) = pollFrom cond (i + 1) f := by
        simp [pollFrom, h0]
      rw [step]
      refine ih (i + 1) f (by omega) ?_ ?_
      · have := htrue
        rwa [show i + (k + 1) = i + 1 + k by omega] at this
      · intro j hj
        have := hbefore (j + 1) (by omega)
        rwa [show i + (j + 1) = i + 1 + j by omega] at this

/-- C4: once the target-cluster client lookup succeeds, the node-ready wait
is a bounded poll: if no poll ever observes a `Ready` condition with status
`True`, it returns `wait.ErrWaitTimeout` after its fixed 61 attempts (an
immediate check plus one per 5-second tick of the 5-minute budget) rather
than blocking forever; and it returns success at the first poll (within the
budget) that does observe readiness. -/
theorem ensureNodeReady_bounded (env : NodeReadyEnv) (m : MachineRecord) (ctx : ClusterCtx)
    (hget : env.clusterManagerGet = .ok ctx) :
    ((∀ i, nodeObservedReady env ctx m.ip i = false) →
      EnsureNodeReady env m = .error .waitTimeout) ∧
    (∀ k, k ≤ 60 → nodeObservedReady env ctx m.ip k = true →
      (∀ j, j < k → nodeObservedReady env ctx m.ip j = false) →
      EnsureNodeReady env m = .ok ()) := by
  constructor
  · intro h
    simp only [EnsureNodeReady, hget, pollImmediate]
    exact pollFrom_never _ h _ 0
  · intro k hk htrue hbefore
    simp only [EnsureNodeReady, hget, pollImmediate]
    refine pollFrom_first_true _ k 0 (300 / 5) (by omega) ?_ ?_
    · simpa using htrue
    · intro j hj
      simpa using hbefore j hj

/-- C4 witness: an environment whose node read always fails (the node never
reports readiness) makes the phase return the timeout error. -/
theorem ensureNodeReady_bounded_w :
    EnsureNodeReady
        { clusterManagerGet := .ok { handle := "target" }
          getNode := fun _ _ _ => .error (.msg "node not found") }
        { ip := "10.0.0.1", labels := [], taints := [] }
      = .error .waitTimeout :=
  (ensureNodeReady_bounded _ _ { handle := "target" } rfl).1 (fun _ => rfl)

/- ------------------------------------------------------------------
C5 — pre-install hook failure carries stderr and exit code
------------------------------------------------------------------ -/

theorem hookMsg_contains_stderr (hook : String) (exit : Int) (stderr errText : String) :
    strContains (hookExecErrorMsg hook exit stderr errText) stderr := by
  refine ⟨("exec \"" ++ hook ++ "\" failed:exit " ++ toString exit ++ ":stderr ").data,
    (":error " ++ errText).data, ?_⟩
  simp [hookExecErrorMsg, String.data_append, List.append_assoc]

theorem hookMsg_contains_exit (hook : String) (exit : Int) (stderr errText : String) :
    strContains (hookExecErrorMsg hook exit stderr errText) (toString exit) := by
  refine ⟨("exec \"" ++ hook ++ "\" failed:exit ").data,
    (":stderr " ++ stderr ++ ":error " ++ errText).data, ?_⟩
  simp [hookExecErrorMsg, String.data_append, List.append_assoc]

/-- The hook string of a cluster record as read by both hook phases (the
source indexes the hook map with the post-install key in both). -/
def hookOf (cluster : Cluster) : String :=
  hooksGet cluster.spec.features HookType.postInstall

/-- C5: when no hook is configured the pre-install hook phase is a
successful no-op; when the execution of the configured hook reports a transport
error or a non-zero exit code, the phase fails with the formatted error
whose message contains the captured stderr and the exit code; and any
failure of the phase makes the (spec-modelled, fail-fast) machine pipeline
return that error no matter what later phases follow — they never run. -/
theorem ensurePreInstallHook_spec (env : MachinePhaseEnv) (cluster : Cluster) :
    (hookOf cluster = "" → EnsurePreInstallHook env cluster = .ok ()) ∧
    (∀ hook h, hookOf cluster = hook → hook ≠ "" → env.ssh = .ok h →
      ((h.exec hook).errMsg.isSome = true ∨ (h.exec hook).exit ≠ 0) →
      EnsurePreInstallHook env cluster =
        .error (.msg (hookExecErrorMsg hook (h.exec hook).exit (h.exec hook).stderr
          ((h.exec hook).errMsg.getD "<nil>"))) ∧
      strContains (hookExecErrorMsg hook (h.exec hook).exit (h.exec hook).stderr
          ((h.exec hook).errMsg.getD "<nil>")) (h.exec hook).stderr ∧
      strContains (hookExecErrorMsg hook (h.exec hook).exit (h.exec hook).stderr
          ((h.exec hook).errMsg.getD "<nil>")) (toString (h.exec hook).exit)) ∧
    (∀ e (rest : List (Unit → Except GoError Unit)),
      EnsurePreInstallHook env cluster = .error e →
      runPhases ((fun _ => EnsurePreInstallHook env cluster) :: rest) () = .error e) := by
  refine ⟨?_, ?_, ?_⟩
  · intro hempty
    simp only [hookOf] at hempty
    simp [EnsurePreInstallHook, hempty]
  · intro hook h hh hne hssh hfail
    simp only [hookOf] at hh
    subst hh
    have hcond : ((h.exec (hooksGet cluster.spec.features HookType.postInstall)).errMsg.isSome
        || (h.exec (hooksGet cluster.spec.features HookType.postInstall)).exit != 0) = true := by
      rcases hfail with hf | hf
      · simp [hf]
      · simp [bne_iff_ne, hf]
    refine ⟨?_, hookMsg_contains_stderr _ _ _ _, hookMsg_contains_exit _ _ _ _⟩
    simp [EnsurePreInstallHook, hne, hssh, hcond]
  · intro e rest herr
    simp [runPhases, herr]

/-- A remote handle on which the configured hook fails with exit code 1 and
stderr `boom`, and every other command succeeds. -/
def demoSSH : SSHHandle :=
  { exec := fun cmd =>
      if cmd = "/opt/hook.sh run" then { stdout := "", stderr := "boom", exit := 1, errMsg := none }
      else { stdout := "", stderr := "", exit := 0, errMsg := none } }

/-- A machine-phase environment with a working SSH transport and succeeding
external routines. -/
def demoMachineEnv : MachinePhaseEnv :=
  { ssh := .ok demoSSH
    getBindPort := fun _ => 6443
    installNode := fun _ => .ok ()
    joinNodePhase := fun _ _ _ => .ok () }

/-- Fixture `demoCluster` with a configured hook. -/
def hookedCluster : Cluster :=
  { demoCluster with spec.features.hooks := [(HookType.postInstall, "/opt/hook.sh run")] }

/-- C5 witness: the concrete failing hook produces the formatted error with
exit code 1 and stderr `boom`, which the message contains. -/
theorem ensurePreInstallHook_spec_w :
    EnsurePreInstallHook demoMachineEnv hookedCluster =
      .error (.msg "exec \"/opt/hook.sh run\" failed:exit 1:stderr boom:error <nil>") ∧
    strContains "exec \"/opt/hook.sh run\" failed:exit 1:stderr boom:error <nil>" "boom" := by
  have h := (ensurePreInstallHook_spec demoMachineEnv hookedCluster).2.1
    "/opt/hook.sh run" demoSSH rfl (by decide) rfl (Or.inr (by decide))
  exact ⟨h.1, h.2.1⟩

/- ------------------------------------------------------------------
C7 — what the machine kubeconfig phase builds
------------------------------------------------------------------ -/

/-- Fixture `demoCluster` with third-party HA configured and both credential tokens
set (and distinct). -/
def tpCluster : Cluster :=
  { demoCluster with
    spec.features.ha := some { dkeHA := none, thirdPartyHA := some { vip := "3.3.3.3", vport := 8443 } }
    credential := { demoCredNil with
                    token := some "cluster-token", bootstrapToken := some "bootstrap-token" } }

/-- C7 counterexample: on `tpCluster` the machine kubeconfig phase builds
options whose token is the cluster token `"cluster-token"`, which differs
from the stored bootstrap token — the kubeconfig is not authenticated with
the bootstrap token; its endpoint is the third-party-HA VIP at the bind
port. -/
theorem ensureKubeconfigNode_token_cex :
    EnsureKubeconfigNode demoMachineEnv tpCluster =
      .ok { masterEndpoint := "https://3.3.3.3:6443", clusterName := "demo",
            caCert := "CA-CERT", token := "cluster-token" } ∧
    tpCluster.credential.bootstrapToken = some "bootstrap-token" ∧
    ("cluster-token" : String) ≠ "bootstrap-token" :=
  ⟨rfl, rfl, by decide⟩

/-- C7 amended: whenever SSH succeeds, third-party HA is configured and the
cluster token is non-nil, the machine kubeconfig phase builds the
kubeconfig against the endpoint of the third-party-HA VIP at the cluster
bind port and authenticates it with the cluster CA certificate and the
cluster token (not the bootstrap token). -/
theorem ensureKubeconfigNode_builds (env : MachinePhaseEnv) (c : Cluster) (h : SSHHandle)
    (ha : HA) (tp : ThirdPartyHA) (tok : String)
    (hssh : env.ssh = .ok h) (hha : c.spec.features.ha = some ha)
    (htp : ha.thirdPartyHA = some tp) (htok : c.credential.token = some tok)
    (hinst : env.installNode
        { masterEndpoint := BuildApiserverEndpoint tp.vip (env.getBindPort c),
          clusterName := c.name, caCert := c.credential.caCert, token := tok } = .ok ()) :
    EnsureKubeconfigNode env c =
      .ok { masterEndpoint := BuildApiserverEndpoint tp.vip (env.getBindPort c),
            clusterName := c.name, caCert := c.credential.caCert, token := tok } := by
  simp [EnsureKubeconfigNode, hssh, hha, htp, htok, hinst]

/-- C7 amended witness: the amended statement at the concrete cluster. -/
theorem ensureKubeconfigNode_builds_w :
    EnsureKubeconfigNode demoMachineEnv tpCluster =
      .ok { masterEndpoint := BuildApiserverEndpoint "3.3.3.3" 6443, clusterName := "demo",
            caCert := "CA-CERT", token := "cluster-token" } :=
  ensureKubeconfigNode_builds demoMachineEnv tpCluster demoSSH
    { dkeHA := none, thirdPartyHA := some { vip := "3.3.3.3", vport := 8443 } }
    { vip := "3.3.3.3", vport := 8443 } "cluster-token" rfl rfl rfl rfl rfl

/- ------------------------------------------------------------------
C10 — the join phase requires a non-empty alternative-names list
------------------------------------------------------------------ -/

/-- C10: with a reachable SSH transport, a cluster whose
`PublicAlternativeNames` list is empty makes the join phase hit the
unconditional index `[0]` and panic (it never returns an error value),
while a non-empty list never produces that panic — the non-empty list is a
precondition of the phase. -/
theorem ensureJoinNode_altnames (env : MachinePhaseEnv) (c : Cluster) (h : SSHHandle)
    (hssh : env.ssh = .ok h) :
    (c.spec.publicAlternativeNames = [] →
      EnsureJoinNode env c = .panics "index out of range [0] with length 0" ∧
      ∀ e, EnsureJoinNode env c ≠ .err e) ∧
    (c.spec.publicAlternativeNames ≠ [] →
      ∀ msg, EnsureJoinNode env c ≠ .panics msg) := by
  constructor
  · intro hempty
    have hp : EnsureJoinNode env c = .panics "index out of range [0] with length 0" := by
      simp [EnsureJoinNode, hssh, hempty]
    exact ⟨hp, fun e hc => Outcome.noConfusion (hp.symm.trans hc)⟩
  · intro hne msg
    cases hl : c.spec.publicAlternativeNames with
    | nil => exact absurd hl hne
    | cons n rest =>
      simp only [EnsureJoinNode, hssh, hl]
      cases env.joinNodePhase c (BuildApiserverEndpoint n (env.getBindPort c)) false <;> simp

/-- Fixture `demoCluster` with no public alternative names declared. -/
def noAltCluster : Cluster :=
  { demoCluster with spec.publicAlternativeNames := [] }

/-- C10 witness: the phase panics on the concrete cluster without
alternative names. -/
theorem ensureJoinNode_altnames_w :
    EnsureJoinNode demoMachineEnv noAltCluster = .panics "index out of range [0] with length 0" :=
  ((ensureJoinNode_altnames demoMachineEnv noAltCluster demoSSH rfl).1 rfl).1

end MCO
